import Mathlib

/-!
Verification of the behavioral contract of the AWX inventory-source form
component (awx/ui_next/src/screens/Inventory/shared/InventorySourceForm.jsx).

The component is shallowly embedded: the form-values record, the
initial-values seeding, the source-type reset routine, the source-choice
filtering, the environment-selector rendering, the provider sub-section
dispatch and the loader render branch are translated directly from the
source file.  The generic form engine (Formik) and the request hook
(useRequest) live outside the packaged sources; where a claim depends on
them, the missing behavior is modelled from the specification and the
definition says so in its doc comment.
-/

/-- The working record of the form, one field per declared form field of
the component (the keys of the initialValues object in the source). -/
structure FormValues where
  credential : Option Nat
  custom_virtualenv : String
  description : String
  group_by : String
  instance_filters : String
  name : String
  overwrite : Bool
  overwrite_vars : Bool
  source : String
  source_path : String
  source_project : Option Nat
  source_regions : String
  source_script : Option Nat
  source_vars : String
  update_cache_timeout : Nat
  update_on_launch : Bool
  update_on_project_update : Bool
  verbosity : Nat
deriving DecidableEq

/-- An existing inventory-source entity handed to the form for editing.
Reference fields (credential, source_project, source_script) live under
summary_fields in the API payload and are modelled by their ids. -/
structure SourceEntity where
  name : String
  description : String
  source : String
  custom_virtualenv : String
  group_by : String
  instance_filters : String
  overwrite : Bool
  overwrite_vars : Bool
  source_path : String
  source_regions : String
  source_vars : String
  update_cache_timeout : Nat
  update_on_launch : Bool
  update_on_project_update : Bool
  verbosity : Nat
  summary_fields_credential : Option Nat
  summary_fields_source_project : Option Nat
  summary_fields_source_script : Option Nat
deriving DecidableEq

/-- JavaScript x || d for an optionally absent string: an absent or empty
string is falsy and yields the default. -/
def jsOrS (x : Option String) (d : String) : String :=
  match x with
  | none => d
  | some s => if s = "" then d else s

/-- JavaScript x || d for an optionally absent boolean: absent or false is
falsy and yields the default. -/
def jsOrB (x : Option Bool) (d : Bool) : Bool :=
  match x with
  | none => d
  | some b => if b then b else d

/-- JavaScript x || d for an optionally absent number: absent or zero is
falsy and yields the default. -/
def jsOrN (x : Option Nat) (d : Nat) : Nat :=
  match x with
  | none => d
  | some n => if n = 0 then d else n

/-- JavaScript x || null for an optionally reachable reference field
(source missing, or the reference itself null). -/
def jsOrRef (x : Option (Option Nat)) : Option Nat :=
  match x with
  | none => none
  | some r => r

/-- The initialValues object of InventorySourceForm, seeded from the
optional existing entity with the JavaScript-disjunction defaults used in
the source; source_path uses the ternary on strict equality with the empty
string. -/
def initialValues (src : Option SourceEntity) : FormValues :=
  { credential := jsOrRef (src.map (fun e => e.summary_fields_credential))
  , custom_virtualenv := jsOrS (src.map (fun e => e.custom_virtualenv)) ""
  , description := jsOrS (src.map (fun e => e.description)) ""
  , group_by := jsOrS (src.map (fun e => e.group_by)) ""
  , instance_filters := jsOrS (src.map (fun e => e.instance_filters)) ""
  , name := jsOrS (src.map (fun e => e.name)) ""
  , overwrite := jsOrB (src.map (fun e => e.overwrite)) false
  , overwrite_vars := jsOrB (src.map (fun e => e.overwrite_vars)) false
  , source := jsOrS (src.map (fun e => e.source)) ""
  , source_path :=
      match src with
      | none => ""
      | some e => if e.source_path = "" then "/ (project root)" else ""
  , source_project := jsOrRef (src.map (fun e => e.summary_fields_source_project))
  , source_regions := jsOrS (src.map (fun e => e.source_regions)) ""
  , source_script := jsOrRef (src.map (fun e => e.summary_fields_source_script))
  , source_vars := jsOrS (src.map (fun e => e.source_vars)) "---\n"
  , update_cache_timeout := jsOrN (src.map (fun e => e.update_cache_timeout)) 0
  , update_on_launch := jsOrB (src.map (fun e => e.update_on_launch)) false
  , update_on_project_update := jsOrB (src.map (fun e => e.update_on_project_update)) false
  , verbosity := jsOrN (src.map (fun e => e.verbosity)) 1 }

/-- The resetSubFormFields routine of InventorySourceFormFields.  When the
newly selected type equals the initial source, resetForm restores the
initial values while keeping the current name, description and
custom_virtualenv and setting source to the selected type; otherwise
setFieldValue writes the fifteen keys of the defaults object over the
current values. -/
def resetSubFormFields (iv : FormValues) (values : FormValues)
    (sourceType : String) : FormValues :=
  if sourceType = iv.source then
    { iv with
        name := values.name
      , description := values.description
      , custom_virtualenv := values.custom_virtualenv
      , source := sourceType }
  else
    { values with
        credential := none
      , group_by := ""
      , instance_filters := ""
      , overwrite := false
      , overwrite_vars := false
      , source := sourceType
      , source_path := ""
      , source_project := none
      , source_regions := ""
      , source_script := none
      , source_vars := "---\n"
      , update_cache_timeout := 0
      , update_on_launch := false
      , update_on_project_update := false
      , verbosity := 1 }

/-- One entry of the source-type select, as built by
buildSourceChoiceOptions. -/
structure Choice where
  label : String
  key : String
  value : String
deriving DecidableEq

/-- Metadata of the source field inside the OPTIONS payload: the list of
(code, label) choice pairs. -/
structure SourceFieldMeta where
  choices : List (String × String)
deriving DecidableEq

/-- The GET actions block of the OPTIONS payload. -/
structure GetActions where
  source : SourceFieldMeta
deriving DecidableEq

/-- The actions block of the OPTIONS payload. -/
structure OptionsActions where
  GET : GetActions
deriving DecidableEq

/-- The OPTIONS metadata payload delivered by the read of the backend. -/
structure SourceOptions where
  actions : OptionsActions
deriving DecidableEq

/-- The buildSourceChoiceOptions helper: map each (choice, label) pair of
options.actions.GET.source.choices to a select entry and drop the entry
whose key is the string file. -/
def buildSourceChoiceOptions (options : SourceOptions) : List Choice :=
  let sourceChoices := options.actions.GET.source.choices.map
    (fun p => { label := p.2, key := p.1, value := p.1 })
  sourceChoices.filter (fun c => c.key ≠ "file")

/-- One entry of the Ansible-environment select. -/
structure VenvOption where
  value : String
  label : String
  key : String
deriving DecidableEq

/-- The defaultVenv entry of InventorySourceFormFields: the fixed
use-default-environment option. -/
def defaultVenv : VenvOption :=
  { label := "Use Default Ansible Environment"
  , value := "/venv/ansible/"
  , key := "default" }

/-- The data list of the environment select: the default entry followed by
every configured path other than the default value. -/
def venvSelectData (custom_virtualenvs : List String) : List VenvOption :=
  defaultVenv ::
    (custom_virtualenvs.filter (fun value => value ≠ defaultVenv.value)).map
      (fun value => { value := value, label := value, key := value })

/-- The rendering of the environment form group: the source guards it with
custom_virtualenvs && custom_virtualenvs.length > 1 (an absent list is
falsy; an empty or singleton list fails the length test), and when shown
binds the select data to the custom_virtualenv field. -/
def renderVenvGroup (custom_virtualenvs : Option (List String)) :
    Option (String × List VenvOption) :=
  match custom_virtualenvs with
  | none => none
  | some l =>
      if 1 < l.length then some ("custom_virtualenv", venvSelectData l)
      else none

/-- The eleven provider sub-sections imported by the component, one
constructor per sub-form. -/
inductive SubForm where
  | azure
  | cloudForms
  | customScript
  | ec2
  | gce
  | openStack
  | virtualization
  | satellite
  | scm
  | tower
  | vmware
deriving DecidableEq

/-- The object-literal dispatch on sourceField.value inside the
Source-details block: each of the eleven codes selects its sub-form, any
other key reads as undefined. -/
def subFormMap (code : String) : Option SubForm :=
  match code with
  | "azure_rm" => some SubForm.azure
  | "cloudforms" => some SubForm.cloudForms
  | "custom" => some SubForm.customScript
  | "ec2" => some SubForm.ec2
  | "gce" => some SubForm.gce
  | "openstack" => some SubForm.openStack
  | "rhv" => some SubForm.virtualization
  | "satellite6" => some SubForm.satellite
  | "scm" => some SubForm.scm
  | "tower" => some SubForm.tower
  | "vmware" => some SubForm.vmware
  | _ => none

/-- The Source-details block: rendered only when sourceField.value is not
the empty string, with its fixed heading and the sub-form chosen by the
dispatch map. -/
structure SourceDetails where
  heading : String
  subForm : Option SubForm
deriving DecidableEq

/-- Conditional rendering of the Source-details block from the current
value of the source field. -/
def renderSourceDetails (sourceValue : String) : Option SourceDetails :=
  if sourceValue = "" then none
  else some { heading := "Source details", subForm := subFormMap sourceValue }

/-- What InventorySourceForm returns from its render path. -/
inductive Render where
  | contentError (e : String)
  | contentLoading
  | form (options : SourceOptions)
deriving DecidableEq

/-- The observable state of the options request as read by the component
from the useRequest hook. -/
structure RequestState where
  isLoading : Bool
  error : Option String
  result : Option SourceOptions
deriving DecidableEq

/-- The early-return render branch of InventorySourceForm: an error renders
ContentError with that error, a missing result or a pending load renders
ContentLoading, otherwise the form renders with the fetched options. -/
def renderInventorySourceForm (s : RequestState) : Render :=
  match s.error with
  | some e => Render.contentError e
  | none =>
      match s.result with
      | none => Render.contentLoading
      | some o => if s.isLoading then Render.contentLoading else Render.form o

/-- Phases of the options load over one mount of the component. -/
inductive LoadPhase where
  | idle
  | loading
  | failed (e : String)
  | ready (o : SourceOptions)
deriving DecidableEq

/-- Events an options load can see during one mount. -/
inductive LoadEvent where
  | mount
  | resolve (o : SourceOptions)
  | reject (e : String)
deriving DecidableEq

/-- Modelled from the spec: the useRequest hook is outside the packaged
sources; per the options-loading state machine of the spec, one request is
issued on mount (idle to loading), the single completion resolves to ready
or rejects to failed, and both outcomes are terminal for the mount with no
retry, so no event leaves them. -/
def loadStep : LoadPhase → LoadEvent → LoadPhase
  | LoadPhase.idle, LoadEvent.mount => LoadPhase.loading
  | LoadPhase.loading, LoadEvent.resolve o => LoadPhase.ready o
  | LoadPhase.loading, LoadEvent.reject e => LoadPhase.failed e
  | p, _ => p

/-- The request state the component observes in each load phase. -/
def phaseState : LoadPhase → RequestState
  | LoadPhase.idle => { isLoading := false, error := none, result := none }
  | LoadPhase.loading => { isLoading := true, error := none, result := none }
  | LoadPhase.failed e => { isLoading := false, error := some e, result := none }
  | LoadPhase.ready o => { isLoading := false, error := none, result := some o }

/-- The onSubmit wrapper the component hands to the form engine: it passes
the values record to the externally supplied callback unchanged. -/
def formikOnSubmit {α : Type} (onSubmit : FormValues → α)
    (values : FormValues) : α :=
  onSubmit values

/-- The form-values record flattened to its (field name, field value)
pairs, in the declaration order of the initialValues object. -/
inductive FieldValue where
  | str (s : String)
  | bool (b : Bool)
  | nat (n : Nat)
  | ref (r : Option Nat)
deriving DecidableEq

/-- Enumeration of the fields a FormValues record carries on submit. -/
def FormValues.toPairs (v : FormValues) : List (String × FieldValue) :=
  [ ("credential", FieldValue.ref v.credential)
  , ("custom_virtualenv", FieldValue.str v.custom_virtualenv)
  , ("description", FieldValue.str v.description)
  , ("group_by", FieldValue.str v.group_by)
  , ("instance_filters", FieldValue.str v.instance_filters)
  , ("name", FieldValue.str v.name)
  , ("overwrite", FieldValue.bool v.overwrite)
  , ("overwrite_vars", FieldValue.bool v.overwrite_vars)
  , ("source", FieldValue.str v.source)
  , ("source_path", FieldValue.str v.source_path)
  , ("source_project", FieldValue.ref v.source_project)
  , ("source_regions", FieldValue.str v.source_regions)
  , ("source_script", FieldValue.ref v.source_script)
  , ("source_vars", FieldValue.str v.source_vars)
  , ("update_cache_timeout", FieldValue.nat v.update_cache_timeout)
  , ("update_on_launch", FieldValue.bool v.update_on_launch)
  , ("update_on_project_update", FieldValue.bool v.update_on_project_update)
  , ("verbosity", FieldValue.nat v.verbosity) ]

/-- The declared field set of the form, as listed in the initialValues
object of the source. -/
def declaredFieldNames : List String :=
  [ "credential", "custom_virtualenv", "description", "group_by"
  , "instance_filters", "name", "overwrite", "overwrite_vars", "source"
  , "source_path", "source_project", "source_regions", "source_script"
  , "source_vars", "update_cache_timeout", "update_on_launch"
  , "update_on_project_update", "verbosity" ]

/-- Modelled from the spec: the required validator from util/validators is
outside the packaged sources; per the spec, an empty value is a validation
error carrying the supplied fixed message. -/
def requiredValidator (message : String) (value : String) : Option String :=
  if value = "" then some message else none

/-- The validator attached to the source field by useField in the source,
with its fixed message. -/
def validateSource (value : String) : Option String :=
  requiredValidator "Set a value for this field" value

/-- Modelled from the spec: the name field carries a required rule whose
message is supplied by the form library (null is passed in the source), so
only the emptiness test matters here. -/
def validateName (value : String) : Option String :=
  requiredValidator "This field must not be blank" value

/-- Modelled from the spec: the form engine (Formik) is outside the
packaged sources; per the spec, a submit attempt is blocked when a declared
per-field required rule fails, and otherwise hands the values snapshot to
the onSubmit wrapper. -/
def attemptSubmit {α : Type} (onSubmit : FormValues → α)
    (v : FormValues) : Option α :=
  match validateName v.name, validateSource v.source with
  | none, none => some (formikOnSubmit onSubmit v)
  | _, _ => none

/-- A form state with several user edits, used to exercise the reset
routine at concrete inputs. -/
def sampleValues : FormValues :=
  { initialValues none with
      name := "edited name"
    , description := "edited description"
    , custom_virtualenv := "/venv/extra/"
    , credential := some 7
    , overwrite := true
    , source := "gce"
    , source_regions := "us-east-1"
    , verbosity := 3 }

/-- An existing entity whose stored source_path is empty and whose stored
verbosity is zero. -/
def entityBlankPath : SourceEntity :=
  { name := "Cloud inventory"
  , description := "synced nightly"
  , source := "ec2"
  , custom_virtualenv := ""
  , group_by := ""
  , instance_filters := ""
  , overwrite := false
  , overwrite_vars := false
  , source_path := ""
  , source_regions := ""
  , source_vars := ""
  , update_cache_timeout := 0
  , update_on_launch := false
  , update_on_project_update := false
  , verbosity := 0
  , summary_fields_credential := some 3
  , summary_fields_source_project := none
  , summary_fields_source_script := none }

/-- An existing entity whose stored source_path is not empty. -/
def entityWithPath : SourceEntity :=
  { entityBlankPath with source := "scm", source_path := "inventories/hosts.yml" }

/-- Claim C1: for every form state and every newly selected source-type
code different from the initial source, the reset routine overwrites
exactly the fourteen provider-neutral fields to their fixed defaults, sets
source to the chosen code, and leaves name, description and
custom_virtualenv unchanged. -/
theorem reset_other_type_overwrites_defaults (iv values : FormValues)
    (sourceType : String) (h : sourceType ≠ iv.source) :
    (resetSubFormFields iv values sourceType).credential = none
    ∧ (resetSubFormFields iv values sourceType).group_by = ""
    ∧ (resetSubFormFields iv values sourceType).instance_filters = ""
    ∧ (resetSubFormFields iv values sourceType).overwrite = false
    ∧ (resetSubFormFields iv values sourceType).overwrite_vars = false
    ∧ (resetSubFormFields iv values sourceType).source = sourceType
    ∧ (resetSubFormFields iv values sourceType).source_path = ""
    ∧ (resetSubFormFields iv values sourceType).source_project = none
    ∧ (resetSubFormFields iv values sourceType).source_regions = ""
    ∧ (resetSubFormFields iv values sourceType).source_script = none
    ∧ (resetSubFormFields iv values sourceType).source_vars = "---\n"
    ∧ (resetSubFormFields iv values sourceType).update_cache_timeout = 0
    ∧ (resetSubFormFields iv values sourceType).update_on_launch = false
    ∧ (resetSubFormFields iv values sourceType).update_on_project_update = false
    ∧ (resetSubFormFields iv values sourceType).verbosity = 1
    ∧ (resetSubFormFields iv values sourceType).name = values.name
    ∧ (resetSubFormFields iv values sourceType).description = values.description
    ∧ (resetSubFormFields iv values sourceType).custom_virtualenv
        = values.custom_virtualenv := by
  unfold resetSubFormFields
  rw [if_neg h]
  exact ⟨rfl, rfl, rfl, rfl, rfl, rfl, rfl, rfl, rfl, rfl, rfl, rfl, rfl,
    rfl, rfl, rfl, rfl, rfl⟩

/-- Concrete run of the type-change reset: switching a blank form that was
edited to the code ec2 clears the credential and keeps the edited name. -/
theorem reset_other_type_overwrites_defaults_witness :
    ("ec2" : String) ≠ (initialValues none).source
    ∧ (resetSubFormFields (initialValues none) sampleValues "ec2").credential
        = none :=
  ⟨by decide,
   (reset_other_type_overwrites_defaults (initialValues none) sampleValues
     "ec2" (by decide)).1⟩

/-- Claim C2: selecting the source-type code equal to the initial source
restores every form field to its initial value, except that name,
description and custom_virtualenv keep their current edited values. -/
theorem reset_original_type_restores_initial (iv values : FormValues)
    (sourceType : String) (h : sourceType = iv.source) :
    (resetSubFormFields iv values sourceType).name = values.name
    ∧ (resetSubFormFields iv values sourceType).description = values.description
    ∧ (resetSubFormFields iv values sourceType).custom_virtualenv
        = values.custom_virtualenv
    ∧ (resetSubFormFields iv values sourceType).credential = iv.credential
    ∧ (resetSubFormFields iv values sourceType).group_by = iv.group_by
    ∧ (resetSubFormFields iv values sourceType).instance_filters
        = iv.instance_filters
    ∧ (resetSubFormFields iv values sourceType).overwrite = iv.overwrite
    ∧ (resetSubFormFields iv values sourceType).overwrite_vars
        = iv.overwrite_vars
    ∧ (resetSubFormFields iv values sourceType).source = iv.source
    ∧ (resetSubFormFields iv values sourceType).source_path = iv.source_path
    ∧ (resetSubFormFields iv values sourceType).source_project
        = iv.source_project
    ∧ (resetSubFormFields iv values sourceType).source_regions
        = iv.source_regions
    ∧ (resetSubFormFields iv values sourceType).source_script
        = iv.source_script
    ∧ (resetSubFormFields iv values sourceType).source_vars = iv.source_vars
    ∧ (resetSubFormFields iv values sourceType).update_cache_timeout
        = iv.update_cache_timeout
    ∧ (resetSubFormFields iv values sourceType).update_on_launch
        = iv.update_on_launch
    ∧ (resetSubFormFields iv values sourceType).update_on_project_update
        = iv.update_on_project_update
    ∧ (resetSubFormFields iv values sourceType).verbosity = iv.verbosity := by
  unfold resetSubFormFields
  rw [if_pos h]
  exact ⟨rfl, rfl, rfl, rfl, rfl, rfl, rfl, rfl, h, rfl, rfl, rfl, rfl,
    rfl, rfl, rfl, rfl, rfl⟩

/-- Concrete run of the back-to-original reset: re-selecting ec2 on a form
seeded from an ec2 entity keeps the edited name. -/
theorem reset_original_type_restores_initial_witness :
    ("ec2" : String) = (initialValues (some entityBlankPath)).source
    ∧ (resetSubFormFields (initialValues (some entityBlankPath)) sampleValues
        "ec2").name = sampleValues.name :=
  ⟨by decide,
   (reset_original_type_restores_initial (initialValues (some entityBlankPath))
     sampleValues "ec2" (by decide)).1⟩

/-- The options payload of the worked example in the spec: codes ec2 and
file with their labels. -/
def exampleOptions : SourceOptions :=
  ⟨⟨⟨⟨[("ec2", "Amazon EC2"), ("file", "File")]⟩⟩⟩⟩

/-- Claim C3: the built source-type choices never contain the code file,
every other (code, label) pair of the payload appears with its label, and
on the worked example only the Amazon EC2 entry remains. -/
theorem buildSourceChoiceOptions_excludes_file (options : SourceOptions) :
    (∀ c ∈ buildSourceChoiceOptions options, c.key ≠ "file")
    ∧ (∀ choice label,
        (choice, label) ∈ options.actions.GET.source.choices →
        choice ≠ "file" →
        ({ label := label, key := choice, value := choice } : Choice)
          ∈ buildSourceChoiceOptions options)
    ∧ buildSourceChoiceOptions exampleOptions
        = [{ label := "Amazon EC2", key := "ec2", value := "ec2" }] := by
  refine ⟨?_, ?_, by decide⟩
  · intro c hc
    have hmem := List.mem_filter.mp hc
    simpa using hmem.2
  · intro choice label hmem hne
    refine List.mem_filter.mpr ⟨?_, by simpa using hne⟩
    exact List.mem_map.mpr ⟨(choice, label), hmem, rfl⟩

/-- Concrete run of the choice builder on the worked example: the pair for
ec2 is offered. -/
theorem buildSourceChoiceOptions_excludes_file_witness :
    ("ec2", "Amazon EC2") ∈ exampleOptions.actions.GET.source.choices
    ∧ ({ label := "Amazon EC2", key := "ec2", value := "ec2" } : Choice)
        ∈ buildSourceChoiceOptions exampleOptions :=
  ⟨by decide,
   (buildSourceChoiceOptions_excludes_file exampleOptions).2.1 "ec2"
     "Amazon EC2" (by decide) (by decide)⟩

/-- Claim C4: a rejected options fetch renders the error indicator carrying
the failure, never the form, and the failed phase is terminal for the
mount: a reject during loading enters it and no later event leaves it. -/
theorem options_error_terminal_no_form (e : String) (evs : List LoadEvent) :
    evs.foldl loadStep (LoadPhase.failed e) = LoadPhase.failed e
    ∧ loadStep LoadPhase.loading (LoadEvent.reject e) = LoadPhase.failed e
    ∧ renderInventorySourceForm (phaseState (LoadPhase.failed e))
        = Render.contentError e
    ∧ ∀ o, renderInventorySourceForm (phaseState (LoadPhase.failed e))
        ≠ Render.form o := by
  refine ⟨?_, rfl, rfl, ?_⟩
  · induction evs with
    | nil => rfl
    | cons ev rest ih =>
        have hstep : loadStep (LoadPhase.failed e) ev = LoadPhase.failed e := by
          cases ev <;> rfl
        simpa [List.foldl, hstep] using ih
  · intro o hcontra
    simp [renderInventorySourceForm, phaseState] at hcontra

/-- Concrete run of the loader after a failure: later mount and resolve
events leave the failed phase unchanged and the error stays rendered. -/
theorem options_error_terminal_no_form_witness :
    [LoadEvent.mount, LoadEvent.resolve exampleOptions].foldl loadStep
        (LoadPhase.failed "network down") = LoadPhase.failed "network down"
    ∧ renderInventorySourceForm (phaseState (LoadPhase.failed "network down"))
        = Render.contentError "network down" :=
  ⟨(options_error_terminal_no_form "network down"
      [LoadEvent.mount, LoadEvent.resolve exampleOptions]).1,
   (options_error_terminal_no_form "network down" []).2.2.1⟩

/-- Claim C5: the submit wrapper hands the current values snapshot to the
external callback unchanged, and every values record carries exactly the
declared field set, so no edit or reset adds or drops a field. -/
theorem submit_passes_snapshot_verbatim {α : Type} (onSubmit : FormValues → α)
    (values : FormValues) :
    formikOnSubmit onSubmit values = onSubmit values
    ∧ values.toPairs.map Prod.fst = declaredFieldNames :=
  ⟨rfl, rfl⟩

/-- Claim C6: while the source field is empty, the required validator on
source yields its fixed message and a submit attempt never reaches the
external callback. -/
theorem empty_source_blocks_submit {α : Type} (onSubmit : FormValues → α)
    (v : FormValues) (h : v.source = "") :
    attemptSubmit onSubmit v = none
    ∧ validateSource v.source = some "Set a value for this field" := by
  have hv : validateSource v.source = some "Set a value for this field" := by
    simp [validateSource, requiredValidator, h]
  refine ⟨?_, hv⟩
  cases hn : validateName v.name <;> simp [attemptSubmit, hn, hv]

/-- Concrete blocked submit: the blank new-source form has an empty source
field and its submit attempt returns nothing. -/
theorem empty_source_blocks_submit_witness :
    (initialValues none).source = ""
    ∧ attemptSubmit FormValues.name (initialValues none) = none :=
  ⟨by decide,
   (empty_source_blocks_submit FormValues.name (initialValues none)
     (by decide)).1⟩

/-- Claim C7: the environment selector renders exactly when the configured
list exists and has more than one entry, and when rendered it binds the
custom_virtualenv field to the fixed default option followed by every
configured path other than the default path. -/
theorem venv_selector_iff_multiple (venvs : Option (List String)) :
    ((renderVenvGroup venvs).isSome = true
      ↔ ∃ l, venvs = some l ∧ 1 < l.length)
    ∧ (∀ group, renderVenvGroup venvs = some group →
        ∃ l, venvs = some l
          ∧ group.1 = "custom_virtualenv"
          ∧ group.2.head? = some defaultVenv
          ∧ defaultVenv.value = "/venv/ansible/"
          ∧ group.2.tail.map VenvOption.value
              = l.filter (fun v => v ≠ "/venv/ansible/")) := by
  constructor
  · cases venvs with
    | none => simp [renderVenvGroup]
    | some l =>
        by_cases hl : 1 < l.length
        · simp [renderVenvGroup, hl]
        · simp [renderVenvGroup, hl]
  · intro group hgroup
    cases venvs with
    | none => simp [renderVenvGroup] at hgroup
    | some l =>
        refine ⟨l, rfl, ?_⟩
        by_cases hl : 1 < l.length
        · rw [renderVenvGroup, if_pos hl] at hgroup
          cases hgroup
          refine ⟨rfl, rfl, rfl, ?_⟩
          have hcomp : (VenvOption.value ∘ fun value : String =>
              ({ value := value, label := value, key := value } : VenvOption))
              = fun value => value := rfl
          simp [venvSelectData, defaultVenv, List.map_map, hcomp]
        · rw [renderVenvGroup, if_neg hl] at hgroup
          exact absurd hgroup (by simp)

/-- A configured environment list with two entries including the default
path. -/
def exampleVenvs : List String := ["/venv/ansible/", "/venv/custom/"]

/-- Concrete run of the environment-selector gate: a two-entry configured
list renders the selector. -/
theorem venv_selector_iff_multiple_witness :
    (renderVenvGroup (some exampleVenvs)).isSome = true :=
  (venv_selector_iff_multiple (some exampleVenvs)).1.mpr
    ⟨exampleVenvs, rfl, by decide⟩

/-- Claim C8: an empty source field renders no Source-details block at all,
and each of the eleven provider codes renders exactly its own sub-section
beneath the Source details heading. -/
theorem source_details_dispatch :
    renderSourceDetails "" = none
    ∧ renderSourceDetails "azure_rm"
        = some { heading := "Source details", subForm := some SubForm.azure }
    ∧ renderSourceDetails "cloudforms"
        = some { heading := "Source details", subForm := some SubForm.cloudForms }
    ∧ renderSourceDetails "custom"
        = some { heading := "Source details", subForm := some SubForm.customScript }
    ∧ renderSourceDetails "ec2"
        = some { heading := "Source details", subForm := some SubForm.ec2 }
    ∧ renderSourceDetails "gce"
        = some { heading := "Source details", subForm := some SubForm.gce }
    ∧ renderSourceDetails "openstack"
        = some { heading := "Source details", subForm := some SubForm.openStack }
    ∧ renderSourceDetails "rhv"
        = some { heading := "Source details", subForm := some SubForm.virtualization }
    ∧ renderSourceDetails "satellite6"
        = some { heading := "Source details", subForm := some SubForm.satellite }
    ∧ renderSourceDetails "scm"
        = some { heading := "Source details", subForm := some SubForm.scm }
    ∧ renderSourceDetails "tower"
        = some { heading := "Source details", subForm := some SubForm.tower }
    ∧ renderSourceDetails "vmware"
        = some { heading := "Source details", subForm := some SubForm.vmware } := by
  refine ⟨rfl, rfl, rfl, rfl, rfl, rfl, rfl, rfl, rfl, rfl, rfl, rfl⟩

/-- Claim C9: for an existing entity the seeded source_path is the project
root marker exactly when the stored source_path is empty, and the empty
string in every other case, so a non-empty stored path is not carried into
the form. -/
theorem initial_source_path_projection (e : SourceEntity) :
    (e.source_path = ""
      → (initialValues (some e)).source_path = "/ (project root)")
    ∧ (e.source_path ≠ ""
      → (initialValues (some e)).source_path = "") := by
  constructor <;> intro h <;> simp [initialValues, h]

/-- Concrete seeding of source_path: an entity with an empty stored path
seeds the project-root marker and one with a stored file path seeds the
empty string. -/
theorem initial_source_path_projection_witness :
    (initialValues (some entityBlankPath)).source_path = "/ (project root)"
    ∧ (initialValues (some entityWithPath)).source_path = "" :=
  ⟨(initial_source_path_projection entityBlankPath).1 rfl,
   (initial_source_path_projection entityWithPath).2 (by decide)⟩

/-- Claim C10: an existing entity whose stored verbosity is zero is seeded
with verbosity one, because the JavaScript disjunction treats zero as
falsy and substitutes the default. -/
theorem initial_verbosity_default (e : SourceEntity)
    (h : e.verbosity = 0) :
    (initialValues (some e)).verbosity = 1 := by
  simp [initialValues, jsOrN, h]

/-- Concrete seeding of verbosity: the sample entity stores verbosity zero
and the form is seeded with one. -/
theorem initial_verbosity_default_witness :
    entityBlankPath.verbosity = 0
    ∧ (initialValues (some entityBlankPath)).verbosity = 1 :=
  ⟨rfl, initial_verbosity_default entityBlankPath rfl⟩
